import Mathlib

/-!
# NCBI BLAST client (`functions/__main__.js`)

A shallow embedding of the exported function of `functions/__main__.js` and of
the helpers it is built from, followed by theorems about it.

The JavaScript code is asynchronous: it talks to the BLAST service through
promises and timers and reports through a completion callback.  The embedding
makes the effects explicit.  A run is the list of `Event`s the code performs
(log lines, HTTP requests, timers armed, callback invocations), computed from

* the arguments of the call,
* an `Env` that fixes what the outside world answers (the body or the
  rejection of every HTTP request, and what `xml2js.parseString` hands to its
  continuation), and
* the number of firings of the polling interval that are observed.

Each firing of the interval is taken to finish its round trip before the next
one is observed, so the events of one firing are contiguous in the trace; the
number of requests and of callback invocations does not depend on this.
Strings are sequences of Unicode scalar values.
-/

namespace NcbiBlast

/-! ## Values and events -/

/-- Error values that can reach the completion callback. -/
inductive JSError where
  /-- The value `Error(message)` built by the module itself. -/
  | error (message : String)
  /-- The `TypeError` raised by reading property `key` of `null`. -/
  | nullProperty (key : Nat)
  /-- An error value produced by a library (a rejected request, an XML parse error). -/
  | foreign (tag : String)
  deriving DecidableEq, Repr

/-- The delay argument handed to `setTimeout`: the code passes either the number
`REFRESH_TIME` or the text captured from the `RTOE` line. -/
inductive TimerArg where
  | num (ms : Nat)
  | str (text : String)
  deriving DecidableEq, Repr

/-- One observable effect of the module.  `Doc` is the type of parsed result
documents produced by `xml2js`. -/
inductive Event (Doc : Type) where
  /-- A line written with `console.log`. -/
  | log (message : String)
  /-- The call `request.post(url).form(form)`: the form object as handed to the library. -/
  | post (url : String) (form : List (String × String))
  /-- The call `request.get(url)`. -/
  | get (url : String)
  /-- The call `setTimeout(_, delay)`. -/
  | setTimeout (delay : TimerArg)
  /-- The call `setInterval(_, delay)`. -/
  | setInterval (delay : Nat)
  /-- The call `callback(err, result)`; an argument left out or `null` is `none`. -/
  | callback (err : Option JSError) (result : Option Doc)
  deriving DecidableEq, Repr

/-- What the outside world answers during one run. -/
structure Env (Doc : Type) where
  /-- Outcome of the submission `POST`: the body, or the rejection. -/
  submitResponse : Except JSError String
  /-- Outcome of the status check issued by the `k`-th firing of the interval. -/
  searchInfoResponse : Nat → Except JSError String
  /-- Outcome of the result fetch issued by the `k`-th firing of the interval. -/
  resultResponse : Nat → Except JSError String
  /-- The pair `(err, result)` that `xml2js.parseString` passes to its continuation. -/
  parseString : String → Option JSError × Option Doc

/-! ## Constants -/

/-- `const API_ROOT`. -/
def API_ROOT : String := "https://blast.ncbi.nlm.nih.gov/blast/Blast.cgi"

/-- `const REFRESH_TIME`, in milliseconds. -/
def REFRESH_TIME : Nat := 30000

/-- The array literal of the program check. -/
def supportedPrograms : List String :=
  ["blastn", "megablast", "blastp", "blastx", "tblastn", "tblastx"]

/-! ## String primitives of the language -/

/-- The line terminators of ECMAScript: LF, CR, LS and PS. -/
def isLineTerminator (c : Char) : Bool :=
  c.toNat == 10 || c.toNat == 13 || c.toNat == 0x2028 || c.toNat == 0x2029

/-- Number of UTF-16 code units of a character. -/
def utf16Width (c : Char) : Nat := if c.toNat < 0x10000 then 1 else 2

/-- `String.prototype.indexOf` on character lists, scanning from code-unit offset `i`;
`-1` when the needle does not occur. -/
def indexOfFrom (needle : List Char) : List Char → Nat → Int
  | [], i => if needle.isPrefixOf [] then (i : Int) else -1
  | c :: cs, i =>
    if needle.isPrefixOf (c :: cs) then (i : Int)
    else indexOfFrom needle cs (i + utf16Width c)

/-- `body.indexOf(needle)`. -/
def indexOf (body needle : String) : Int := indexOfFrom needle.data body.data 0

/-- A regular expression of the shape `/^<literal>(.*$)/m`. -/
structure LineRegex where
  literal : String
  deriving DecidableEq, Repr

/-- `const RID = /^ {4}RID = (.*$)/m`. -/
def RID : LineRegex := ⟨"    RID = "⟩

/-- `const RTOE = /^ {4}RTOE = (.*$)/m`. -/
def RTOE : LineRegex := ⟨"    RTOE = "⟩

/-- The match array of a `LineRegex`: index `0` is the whole match, index `1` the group. -/
structure MatchResult where
  whole : String
  group1 : String
  deriving DecidableEq, Repr

/-- What `.*` consumes: everything up to the next line terminator. -/
def restOfLine (cs : List Char) : List Char := cs.takeWhile (fun c => !isLineTerminator c)

/-- Attempt of `<literal>(.*$)` at the head of `cs`.  After the greedy `.*` the
position is the end of input or a line terminator, where `$` holds under `m`. -/
def matchHere (lit : List Char) (cs : List Char) : Option MatchResult :=
  if lit.isPrefixOf cs then
    some ⟨String.mk (lit ++ restOfLine (cs.drop lit.length)), String.mk (restOfLine (cs.drop lit.length))⟩
  else none

/-- Leftmost match of `/^<literal>(.*$)/m`; `atLineStart` tells whether `^` holds at
the current position (start of input, or just after a line terminator). -/
def matchFrom (lit : List Char) : Bool → List Char → Option MatchResult
  | atLineStart, [] => if atLineStart then matchHere lit [] else none
  | atLineStart, c :: cs =>
    match (if atLineStart then matchHere lit (c :: cs) else none) with
    | some m => some m
    | none => matchFrom lit (isLineTerminator c) cs

/-- `body.match(re)` for a non-global `LineRegex`; `none` is `null`. -/
def jsMatch (body : String) (re : LineRegex) : Option MatchResult :=
  matchFrom re.literal.data true body.data

/-- Characters `encodeURIComponent` leaves alone: letters, digits and `-_.!~*'()`. -/
def uriUnreserved (c : Char) : Bool :=
  c.isAlphanum || c.toNat == 45 || c.toNat == 95 || c.toNat == 46 || c.toNat == 33 ||
    c.toNat == 126 || c.toNat == 42 || c.toNat == 39 || c.toNat == 40 || c.toNat == 41

/-- UTF-8 encoding of a code point. -/
def utf8Bytes (n : Nat) : List Nat :=
  if n < 0x80 then [n]
  else if n < 0x800 then [0xC0 + n / 64, 0x80 + n % 64]
  else if n < 0x10000 then [0xE0 + n / 4096, 0x80 + n / 64 % 64, 0x80 + n % 64]
  else [0xF0 + n / 262144, 0x80 + n / 4096 % 64, 0x80 + n / 64 % 64, 0x80 + n % 64]

/-- Upper-case hexadecimal digit. -/
def hexDigit (n : Nat) : Char := if n < 10 then Char.ofNat (48 + n) else Char.ofNat (55 + n)

/-- The escape `%XY` of one byte. -/
def percentByte (b : Nat) : List Char := ['%', hexDigit (b / 16), hexDigit (b % 16)]

/-- The built-in `encodeURIComponent`. -/
def encodeURIComponent (s : String) : String :=
  String.mk (s.data.flatMap fun c =>
    if uriUnreserved c then [c] else (utf8Bytes c.toNat).flatMap percentByte)

/-- Value of a string of decimal digits. -/
def decimalValue : List Char → Nat → Option Nat
  | [], acc => some acc
  | c :: cs, acc => if c.isDigit then decimalValue cs (acc * 10 + (c.toNat - 48)) else none

/-- The clamp the runtime applies to a timer delay: a delay below 1 ms or above
2^31 - 1 ms becomes 1 ms. -/
def clampDelay (ms : Nat) : Nat := if 1 ≤ ms ∧ ms ≤ 2147483647 then ms else 1

/-- Milliseconds a timer waits for a given delay argument, for numbers and for
non-empty strings of decimal digits (the runtime converts the argument with
`ToNumber`); other strings are outside this model. -/
def timerMillis : TimerArg → Option Nat
  | .num ms => some (clampDelay ms)
  | .str text =>
    if text.data = [] then none else (decimalValue text.data 0).map clampDelay

/-- Milliseconds between the call `fetchInfo(rid, timeout)` and the first status check:
the timeout has to elapse before `setInterval` is called, and the interval fires for the
first time `REFRESH_TIME` later. -/
def firstCheckMillis (timeout : TimerArg) : Option Nat :=
  (timerMillis timeout).map (fun ms => ms + REFRESH_TIME)

/-- JavaScript falsiness of the `rid` argument: `null`, `undefined` or the empty string. -/
def falsy : Option String → Bool
  | none => true
  | some s => s.data.isEmpty

/-! ## The module -/

section Module

variable {Doc : Type}

/-- URL of the status check. -/
def searchInfoUrl (rid : String) : String :=
  API_ROOT ++ "?&CMD=Get&FORMAT_OBJECT=SearchInfo&RID=" ++ rid

/-- URL of the result fetch. -/
def resultUrl (rid : String) : String :=
  API_ROOT ++ "?CMD=Get&FORMAT_TYPE=XML&RID=" ++ rid

/-- Continuation of `parseString`: `if (err) { callback(err) }  callback(null, result)`. -/
def onParsed (parsed : Option JSError × Option Doc) : List (Event Doc) :=
  (if parsed.1.isSome then [Event.callback parsed.1 none] else []) ++
    [Event.callback none parsed.2]

/-- Settlement of the result fetch of firing `k`: the `then` handler parses the
body, the `catch` handler passes a rejection to the callback. -/
def onResult (env : Env Doc) (k : Nat) : List (Event Doc) :=
  match env.resultResponse k with
  | .ok body => onParsed (env.parseString body)
  | .error err => [Event.callback (some err) none]

/-- The `then` handler of the status check of firing `k`. -/
def onSearchInfo (env : Env Doc) (rid : String) (k : Nat) (body : String) : List (Event Doc) :=
  if indexOf body "Status=FAILED" != -1 then
    [Event.callback
      (some (.error ("Search " ++ rid ++ " failed; Please report to blast-help@ncbi.nlm.nih.gov")))
      none]
  else if indexOf body "Status=UNKNOWN" != -1 then
    [Event.callback (some (.error ("Search " ++ rid ++ " expired."))) none]
  else if indexOf body "Status=READY" != -1 then
    [Event.log ("Fetching search results for query " ++ rid), Event.get (resultUrl rid)] ++
      onResult env k
  else []

/-- The `k`-th firing of the function given to `setInterval`. -/
def tick (env : Env Doc) (rid : String) (k : Nat) : List (Event Doc) :=
  [Event.log ("Updating search info for query " ++ rid), Event.get (searchInfoUrl rid)] ++
    match env.searchInfoResponse k with
    | .ok body => onSearchInfo env rid k body
    | .error err => [Event.callback (some err) none]

/-- The events of firings `0 .. n-1` of the interval, in order. -/
def ticksUpTo (env : Env Doc) (rid : String) : Nat → List (Event Doc)
  | 0 => []
  | n + 1 => ticksUpTo env rid n ++ tick env rid n

/-- `fetchInfo(rid, timeout)`, observed until the interval has fired `ticks` times. -/
def fetchInfo (env : Env Doc) (rid : String) (timeout : TimerArg) (ticks : Nat) :
    List (Event Doc) :=
  [Event.setTimeout timeout,
    Event.log ("Updating search info for query " ++ rid ++ " every " ++
      toString (REFRESH_TIME / 1000) ++ " seconds."),
    Event.setInterval REFRESH_TIME] ++ ticksUpTo env rid ticks

/-- The body of the `then` handler of the submission up to the call of `fetchInfo`:
`rid[0]` and `rtoe[1]`, each of which throws when the match is `null`. -/
def submissionArgs (body : String) : Except JSError (String × String) :=
  match jsMatch body RID with
  | none => .error (.nullProperty 0)
  | some rid =>
    match jsMatch body RTOE with
    | none => .error (.nullProperty 1)
    | some rtoe => .ok (rid.whole, rtoe.group1)

/-- Settlement of the submission: `then` starts polling, `catch` passes a rejection
or an exception of the `then` handler to the callback. -/
def onSubmitted (env : Env Doc) (ticks : Nat) : List (Event Doc) :=
  match env.submitResponse with
  | .error err => [Event.callback (some err) none]
  | .ok body =>
    match submissionArgs body with
    | .error err => [Event.callback (some err) none]
    | .ok (rid, rtoe) => fetchInfo env rid (.str rtoe) ticks

/-- The exported function with its parameters bound. -/
def blast (env : Env Doc) (program database query : String) (rid : Option String)
    (ticks : Nat) : List (Event Doc) :=
  (if !supportedPrograms.contains program then
      [Event.callback (some (.error (program ++ " is not a supported BLAST algorithm"))) none]
    else []) ++
  if falsy rid then
    let program := if program = "megablast" then "blastp&MEGABLAST=on" else program
    [Event.log ("Querying NCBI database " ++ database ++ " with program " ++ program ++
        " and query " ++ query),
      Event.post API_ROOT
        [("CMD", "Put"),
         ("PROGRAM", program),
         ("DATABASE", database),
         ("QUERY", encodeURIComponent query)]] ++
      onSubmitted env ticks
  else
    [Event.log ("Fetching results for RID " ++ rid.getD "")] ++
      fetchInfo env (rid.getD "") (.num REFRESH_TIME) ticks

/-- `module.exports`: an argument left `undefined` (`none`) takes its default
(`blastp`, `nr`, `protein.fasta`, and `null` for `rid`). -/
def moduleExports (env : Env Doc) (program database query : Option String)
    (rid : Option String) (ticks : Nat) : List (Event Doc) :=
  blast env (program.getD "blastp") (database.getD "nr") (query.getD "protein.fasta") rid ticks

/-! ## Observations on a trace -/

/-- URLs of the `GET` requests of a trace, in order. -/
def getUrls (es : List (Event Doc)) : List String :=
  es.filterMap fun e => match e with
    | Event.get url => some url
    | _ => none

/-- Forms of the `POST` requests of a trace, in order. -/
def postedForms (es : List (Event Doc)) : List (List (String × String)) :=
  es.filterMap fun e => match e with
    | Event.post _ form => some form
    | _ => none

/-- Arguments of the callback invocations of a trace, in order. -/
def callbacks (es : List (Event Doc)) : List (Option JSError × Option Doc) :=
  es.filterMap fun e => match e with
    | Event.callback err result => some (err, result)
    | _ => none

/-- Delay arguments of the `setTimeout` calls of a trace, in order. -/
def timeouts (es : List (Event Doc)) : List TimerArg :=
  es.filterMap fun e => match e with
    | Event.setTimeout delay => some delay
    | _ => none

/-- Delays of the `setInterval` calls of a trace, in order. -/
def intervals (es : List (Event Doc)) : List Nat :=
  es.filterMap fun e => match e with
    | Event.setInterval delay => some delay
    | _ => none

/-- Number of outbound HTTP requests of a trace. -/
def requestCount (es : List (Event Doc)) : Nat :=
  (postedForms es).length + (getUrls es).length

/-- Number of status-check requests for job `rid` in a trace. -/
def statusChecks (rid : String) (es : List (Event Doc)) : Nat :=
  (getUrls es).count (searchInfoUrl rid)

/-- Number of result-fetch requests for job `rid` in a trace. -/
def fetches (rid : String) (es : List (Event Doc)) : Nat :=
  (getUrls es).count (resultUrl rid)

end Module

/-! ## The specification's vocabulary -/

/-- The submission form as the specification describes it: `CMD=Put`, the program with
the `megablast` alias rewritten, the database and the percent-encoded query. -/
def submissionForm (program database query : String) : List (String × String) :=
  [("CMD", "Put"),
   ("PROGRAM", if program = "megablast" then "blastp&MEGABLAST=on" else program),
   ("DATABASE", database),
   ("QUERY", encodeURIComponent query)]

/-- The body contains `needle` as a substring. -/
def Contains (body needle : String) : Prop := needle.data <:+: body.data

instance (body needle : String) : Decidable (Contains body needle) := by
  unfold Contains; infer_instance

/-- The lines of a text: the pieces between line terminators. -/
def splitLines : List Char → List (List Char)
  | [] => [[]]
  | c :: cs =>
    if isLineTerminator c then [] :: splitLines cs
    else
      match splitLines cs with
      | [] => [[c]]
      | l :: ls => (c :: l) :: ls

/-- The body has a line that starts with the literal of `re` (for `RID`: a line
`    RID = <value>`). -/
def HasLine (body : String) (re : LineRegex) : Prop :=
  ∃ l ∈ splitLines body.data, re.literal.data <+: l

instance (body : String) (re : LineRegex) : Decidable (HasLine body re) := by
  unfold HasLine; infer_instance

end NcbiBlast

namespace NcbiBlast

/-- The status of a job as the specification reads it off a status-check body:
`Status=FAILED` first, then `Status=UNKNOWN`, then `Status=READY`. -/
inductive JobStatus where
  | failed
  | expired
  | ready
  | pending
  deriving DecidableEq, Repr

/-- Classification of a status-check body by substring membership, in priority order. -/
def classify (body : String) : JobStatus :=
  if Contains body "Status=FAILED" then .failed
  else if Contains body "Status=UNKNOWN" then .expired
  else if Contains body "Status=READY" then .ready
  else .pending

/-- The status check of firing `k` succeeds and its body classifies as ready. -/
def readyTick {Doc : Type} (env : Env Doc) (k : Nat) : Bool :=
  match env.searchInfoResponse k with
  | .ok body => classify body = .ready
  | .error _ => false

/-- The events a firing of the interval can perform: log lines, `GET` requests and
callback invocations. -/
def pollEvent {Doc : Type} : Event Doc → Bool
  | .log _ => true
  | .get _ => true
  | .callback _ _ => true
  | _ => false

/-- The result fetch of firing `k`, if it returns a body, returns one that
`parseString` reports no error for. -/
def parsesCleanly {Doc : Type} (env : Env Doc) (k : Nat) : Bool :=
  match env.resultResponse k with
  | .ok doc => (env.parseString doc).1.isNone
  | .error _ => true

/-! ## Sample environments -/

/-- A parser that accepts exactly the document `<ok/>`. -/
def sampleParse (doc : String) : Option JSError × Option String :=
  if doc = "<ok/>" then (none, some "parsed") else (some (.foreign "xml"), none)

/-- The service accepts the submission with `RID = ABC123`, `RTOE = rtoe`, reports
the status line `status` at every check and serves the document `doc`. -/
def sampleEnv (rtoe status doc : String) : Env String :=
  { submitResponse := .ok ("    RID = ABC123\n    RTOE = " ++ rtoe ++ "\n"),
    searchInfoResponse := fun _ => .ok status,
    resultResponse := fun _ => .ok doc,
    parseString := sampleParse }

/-- The service answers the submission with `body` and every later request with a
transport error. -/
def truncatedSubmitEnv (body : String) : Env String :=
  { submitResponse := .ok body,
    searchInfoResponse := fun _ => .error (.foreign "transport"),
    resultResponse := fun _ => .error (.foreign "transport"),
    parseString := sampleParse }

/-! ## Lemmas on strings -/

theorem indexOfFrom_eq_neg_one (needle : List Char) (cs : List Char) (i : Nat) :
    indexOfFrom needle cs i = -1 ↔ ¬ needle <:+: cs := by
  induction cs generalizing i with
  | nil =>
    by_cases h : needle = []
    · subst h
      simp [indexOfFrom]
    · have : needle.isPrefixOf [] = false := by
        cases needle with
        | nil => exact absurd rfl h
        | cons a as => rfl
      simp [indexOfFrom, this, h]
  | cons c cs ih =>
    by_cases h : needle <+: c :: cs
    · have hp : needle.isPrefixOf (c :: cs) = true := List.isPrefixOf_iff_prefix.mpr h
      simp only [indexOfFrom, hp, if_true]
      constructor
      · intro h1; omega
      · intro h1; exact absurd h.isInfix h1
    · have hp : needle.isPrefixOf (c :: cs) = false := by
        cases hb : needle.isPrefixOf (c :: cs) with
        | false => rfl
        | true => exact absurd (List.isPrefixOf_iff_prefix.mp hb) h
      simp only [indexOfFrom, hp, Bool.false_eq_true, if_false, ih, List.infix_cons_iff, h,
        false_or]

/-- The test `body.indexOf(needle) != -1` is substring membership. -/
theorem indexOf_bne_iff (body needle : String) :
    (indexOf body needle != -1) = true ↔ Contains body needle := by
  unfold indexOf Contains
  rw [bne_iff_ne, Ne, indexOfFrom_eq_neg_one, not_not]

theorem prefix_takeWhile_iff (p : Char → Bool) (lit cs : List Char)
    (h : ∀ c ∈ lit, p c = true) : lit <+: cs.takeWhile p ↔ lit <+: cs := by
  induction lit generalizing cs with
  | nil => simp
  | cons a lit ih =>
    cases cs with
    | nil => simp
    | cons b cs =>
      have ha : p a = true := h a (List.mem_cons_self _ _)
      have hl : ∀ c ∈ lit, p c = true := fun c hc => h c (List.mem_cons_of_mem _ hc)
      by_cases hab : a = b
      · subst hab
        simp [List.takeWhile_cons, ha, List.cons_prefix_cons, ih _ hl]
      · by_cases hb : p b = true
        · simp [List.takeWhile_cons, hb, List.cons_prefix_cons, hab]
        · simp [List.takeWhile_cons, hb, hab]

theorem prefix_restOfLine_iff (lit cs : List Char)
    (h : ∀ c ∈ lit, isLineTerminator c = false) : lit <+: restOfLine cs ↔ lit <+: cs := by
  unfold restOfLine
  apply prefix_takeWhile_iff
  intro c hc
  simp [h c hc]

theorem matchHere_isSome (lit cs : List Char) :
    (matchHere lit cs).isSome = true ↔ lit <+: cs := by
  unfold matchHere
  by_cases h : lit.isPrefixOf cs = true
  · simp only [h, if_true, Option.isSome_some, true_iff]
    exact List.isPrefixOf_iff_prefix.mp h
  · simp only [h, if_false, Option.isSome_none, Bool.false_eq_true, false_iff]
    exact fun hp => h (List.isPrefixOf_iff_prefix.mpr hp)

theorem splitLines_eq (cs : List Char) :
    splitLines cs = restOfLine cs :: (splitLines cs).tail := by
  induction cs with
  | nil => rfl
  | cons c cs ih =>
    by_cases h : isLineTerminator c = true
    · simp [splitLines, restOfLine, List.takeWhile_cons, h]
    · rw [splitLines, if_neg h, ih]
      simp [restOfLine, List.takeWhile_cons, h]

theorem splitLines_tail_cons (c : Char) (cs : List Char) :
    (splitLines (c :: cs)).tail =
      if isLineTerminator c = true then splitLines cs else (splitLines cs).tail := by
  by_cases h : isLineTerminator c = true
  · simp [splitLines, h]
  · rw [splitLines, if_neg h, if_neg h, splitLines_eq cs]
    simp

theorem matchFrom_isSome (lit : List Char) (hlit : ∀ c ∈ lit, isLineTerminator c = false)
    (b : Bool) (cs : List Char) :
    (matchFrom lit b cs).isSome = true ↔
      (b = true ∧ lit <+: restOfLine cs) ∨ ∃ l ∈ (splitLines cs).tail, lit <+: l := by
  induction cs generalizing b with
  | nil =>
    cases b with
    | true => simp [matchFrom, matchHere_isSome, splitLines, restOfLine]
    | false => simp [matchFrom, splitLines]
  | cons c cs ih =>
    by_cases hm : b = true ∧ lit <+: c :: cs
    · obtain ⟨hb, hp⟩ := hm
      subst hb
      have h1 : (matchHere lit (c :: cs)).isSome = true := (matchHere_isSome _ _).mpr hp
      obtain ⟨m, hm⟩ := Option.isSome_iff_exists.mp h1
      simp only [matchFrom, if_true, hm, Option.isSome_some, true_iff]
      exact Or.inl ⟨trivial, (prefix_restOfLine_iff _ _ hlit).mpr hp⟩
    · have h1 : (if b = true then matchHere lit (c :: cs) else none) = none := by
        by_cases hb : b = true
        · have : ¬ lit <+: c :: cs := fun hp => hm ⟨hb, hp⟩
          have h2 : (matchHere lit (c :: cs)).isSome = false := by
            cases h3 : (matchHere lit (c :: cs)).isSome with
            | false => rfl
            | true => exact absurd ((matchHere_isSome _ _).mp h3) this
          simp only [hb, if_true]
          exact Option.not_isSome_iff_eq_none.mp (by simp [h2])
        · simp [hb]
      have h4 : ¬ (b = true ∧ lit <+: restOfLine (c :: cs)) := by
        rw [prefix_restOfLine_iff _ _ hlit]
        exact hm
      rw [matchFrom, h1]
      simp only [ih, splitLines_tail_cons, h4, false_or]
      by_cases hc : isLineTerminator c = true
      · simp only [hc, if_true, true_and]
        conv_rhs => rw [splitLines_eq cs]
        simp
      · simp [hc]

/-- That `body.match(re)` is not `null` means that the body has a line starting with the
literal of `re`, for a literal free of line terminators. -/
theorem jsMatch_isSome_iff (body : String) (re : LineRegex)
    (hlit : ∀ c ∈ re.literal.data, isLineTerminator c = false) :
    (jsMatch body re).isSome = true ↔ HasLine body re := by
  unfold jsMatch HasLine
  rw [matchFrom_isSome _ hlit]
  conv_rhs => rw [splitLines_eq body.data]
  simp

theorem RID_literal_ok : ∀ c ∈ RID.literal.data, isLineTerminator c = false := by decide

theorem RTOE_literal_ok : ∀ c ∈ RTOE.literal.data, isLineTerminator c = false := by decide

theorem jsMatch_eq_none_iff (body : String) (re : LineRegex)
    (hlit : ∀ c ∈ re.literal.data, isLineTerminator c = false) :
    jsMatch body re = none ↔ ¬ HasLine body re := by
  rw [← jsMatch_isSome_iff body re hlit]
  cases jsMatch body re <;> simp

/-! ## Lemmas on traces -/

section Traces

variable {Doc : Type}

theorem getUrls_append (a b : List (Event Doc)) : getUrls (a ++ b) = getUrls a ++ getUrls b := by
  simp [getUrls]

theorem postedForms_append (a b : List (Event Doc)) :
    postedForms (a ++ b) = postedForms a ++ postedForms b := by
  simp [postedForms]

theorem callbacks_append (a b : List (Event Doc)) :
    callbacks (a ++ b) = callbacks a ++ callbacks b := by
  simp [callbacks]

theorem timeouts_append (a b : List (Event Doc)) :
    timeouts (a ++ b) = timeouts a ++ timeouts b := by
  simp [timeouts]

theorem intervals_append (a b : List (Event Doc)) :
    intervals (a ++ b) = intervals a ++ intervals b := by
  simp [intervals]

theorem searchInfoUrl_ne_resultUrl (rid rid2 : String) : searchInfoUrl rid ≠ resultUrl rid2 := by
  intro h
  have h1 := congrArg String.data h
  simp only [searchInfoUrl, resultUrl, String.data_append, List.append_assoc] at h1
  have h2 := List.append_cancel_left h1
  have h3 : ("?&CMD=Get&FORMAT_OBJECT=SearchInfo&RID=".data ++ rid.data).get? 1 = some '&' := rfl
  have h4 : ("?CMD=Get&FORMAT_TYPE=XML&RID=".data ++ rid2.data).get? 1 = some 'C' := rfl
  rw [h2, h4] at h3
  exact absurd h3 (by decide)

/-- The status check and what its `then` handler does, read through `classify`. -/
theorem onSearchInfo_classify (env : Env Doc) (rid : String) (k : Nat) (body : String) :
    onSearchInfo env rid k body =
      match classify body with
      | .failed =>
        [Event.callback
          (some (.error ("Search " ++ rid ++
            " failed; Please report to blast-help@ncbi.nlm.nih.gov"))) none]
      | .expired => [Event.callback (some (.error ("Search " ++ rid ++ " expired."))) none]
      | .ready =>
        Event.log ("Fetching search results for query " ++ rid) :: Event.get (resultUrl rid) ::
          onResult env k
      | .pending => [] := by
  unfold onSearchInfo classify
  simp only [indexOf_bne_iff]
  split_ifs <;> rfl

theorem getUrls_onResult (env : Env Doc) (k : Nat) : getUrls (onResult env k) = [] := by
  unfold onResult onParsed
  cases env.resultResponse k with
  | error e => simp [getUrls]
  | ok body => cases h : (env.parseString body).1 <;> simp [getUrls, h]

theorem getUrls_onSearchInfo (env : Env Doc) (rid : String) (k : Nat) (body : String) :
    getUrls (onSearchInfo env rid k body) =
      if classify body = .ready then [resultUrl rid] else [] := by
  rw [onSearchInfo_classify]
  split <;> rename_i hc
  · simp [hc, getUrls]
  · simp [hc, getUrls]
  · rw [hc, if_pos rfl]
    show getUrls ([Event.log ("Fetching search results for query " ++ rid),
      Event.get (resultUrl rid)] ++ onResult env k) = _
    rw [getUrls_append, getUrls_onResult]
    rfl
  · simp [hc, getUrls]

theorem getUrls_tick (env : Env Doc) (rid : String) (k : Nat) :
    getUrls (tick env rid k) =
      searchInfoUrl rid :: (if readyTick env k = true then [resultUrl rid] else []) := by
  unfold tick readyTick
  rw [getUrls_append]
  cases h : env.searchInfoResponse k with
  | error e => simp [getUrls]
  | ok body =>
    simp only [getUrls_onSearchInfo]
    by_cases hc : classify body = .ready <;> simp [hc, getUrls]

theorem statusChecks_tick (env : Env Doc) (rid : String) (k : Nat) :
    statusChecks rid (tick env rid k) = 1 := by
  unfold statusChecks
  rw [getUrls_tick]
  have h := searchInfoUrl_ne_resultUrl rid rid
  by_cases hr : readyTick env k = true
  · simp [hr, List.count_cons, Ne.symm h]
  · simp [hr, List.count_cons]

theorem fetches_tick (env : Env Doc) (rid : String) (k : Nat) :
    fetches rid (tick env rid k) = if readyTick env k = true then 1 else 0 := by
  unfold fetches
  rw [getUrls_tick]
  have h := searchInfoUrl_ne_resultUrl rid rid
  by_cases hr : readyTick env k = true
  · simp [hr, List.count_cons, h]
  · simp [hr, List.count_cons, h]

theorem statusChecks_ticksUpTo (env : Env Doc) (rid : String) (n : Nat) :
    statusChecks rid (ticksUpTo env rid n) = n := by
  induction n with
  | zero => simp [ticksUpTo, statusChecks, getUrls]
  | succ n ih =>
    have h1 := statusChecks_tick env rid n
    unfold statusChecks at ih h1 ⊢
    rw [ticksUpTo, getUrls_append, List.count_append, ih, h1]

theorem fetches_ticksUpTo (env : Env Doc) (rid : String) (n : Nat) :
    fetches rid (ticksUpTo env rid n) = ((List.range n).filter (readyTick env)).length := by
  induction n with
  | zero => simp [ticksUpTo, fetches, getUrls]
  | succ n ih =>
    have h1 := fetches_tick env rid n
    unfold fetches at ih h1 ⊢
    rw [ticksUpTo, getUrls_append, List.count_append, ih, h1, List.range_succ,
      List.filter_append, List.length_append]
    by_cases hr : readyTick env n = true <;> simp [hr]

theorem getUrls_fetchInfo (env : Env Doc) (rid : String) (timeout : TimerArg) (n : Nat) :
    getUrls (fetchInfo env rid timeout n) = getUrls (ticksUpTo env rid n) := by
  unfold fetchInfo
  rw [getUrls_append]
  simp [getUrls]

end Traces

section Polling

variable {Doc : Type}

theorem pollEvent_onResult (env : Env Doc) (k : Nat) :
    ∀ e ∈ onResult env k, pollEvent e = true := by
  unfold onResult onParsed
  cases env.resultResponse k with
  | error err => simp [pollEvent]
  | ok body => cases h : (env.parseString body).1 <;> simp [pollEvent, h]

theorem pollEvent_tick (env : Env Doc) (rid : String) (k : Nat) :
    ∀ e ∈ tick env rid k, pollEvent e = true := by
  intro e he
  unfold tick at he
  rw [List.mem_append] at he
  rcases he with he | he
  · simp at he
    rcases he with rfl | rfl <;> rfl
  · cases h : env.searchInfoResponse k with
    | error err =>
      rw [h] at he
      simp at he
      subst he
      rfl
    | ok body =>
      rw [h] at he
      simp only [onSearchInfo_classify] at he
      split at he
      · simp at he; subst he; rfl
      · simp at he; subst he; rfl
      · simp only [List.mem_cons] at he
        rcases he with rfl | rfl | he
        · rfl
        · rfl
        · exact pollEvent_onResult env k e he
      · simp at he

theorem pollEvent_ticksUpTo (env : Env Doc) (rid : String) (n : Nat) :
    ∀ e ∈ ticksUpTo env rid n, pollEvent e = true := by
  induction n with
  | zero => simp [ticksUpTo]
  | succ n ih =>
    intro e he
    rw [ticksUpTo, List.mem_append] at he
    rcases he with he | he
    · exact ih e he
    · exact pollEvent_tick env rid n e he

theorem postedForms_of_pollEvent (es : List (Event Doc)) (h : ∀ e ∈ es, pollEvent e = true) :
    postedForms es = [] := by
  unfold postedForms
  rw [List.filterMap_eq_nil_iff]
  intro e he
  have := h e he
  cases e <;> simp_all [pollEvent]

theorem timeouts_of_pollEvent (es : List (Event Doc)) (h : ∀ e ∈ es, pollEvent e = true) :
    timeouts es = [] := by
  unfold timeouts
  rw [List.filterMap_eq_nil_iff]
  intro e he
  have := h e he
  cases e <;> simp_all [pollEvent]

theorem intervals_of_pollEvent (es : List (Event Doc)) (h : ∀ e ∈ es, pollEvent e = true) :
    intervals es = [] := by
  unfold intervals
  rw [List.filterMap_eq_nil_iff]
  intro e he
  have := h e he
  cases e <;> simp_all [pollEvent]

theorem callbacks_onParsed (parsed : Option JSError × Option Doc) :
    callbacks (onParsed parsed) =
      (if parsed.1.isSome = true then [(parsed.1, none)] else []) ++ [(none, parsed.2)] := by
  unfold onParsed
  rw [callbacks_append]
  by_cases h : parsed.1.isSome = true <;> simp [h, callbacks]

theorem callbacks_onResult (env : Env Doc) (k : Nat) :
    callbacks (onResult env k) =
      match env.resultResponse k with
      | .ok body => callbacks (onParsed (env.parseString body))
      | .error err => [(some err, none)] := by
  unfold onResult
  cases env.resultResponse k <;> simp [callbacks]

theorem callbacks_tick (env : Env Doc) (rid : String) (k : Nat) :
    callbacks (tick env rid k) =
      match env.searchInfoResponse k with
      | .error err => [(some err, none)]
      | .ok body =>
        match classify body with
        | .failed =>
          [(some (.error ("Search " ++ rid ++
            " failed; Please report to blast-help@ncbi.nlm.nih.gov")), none)]
        | .expired => [(some (.error ("Search " ++ rid ++ " expired.")), none)]
        | .ready => callbacks (onResult env k)
        | .pending => [] := by
  unfold tick
  rw [callbacks_append]
  cases env.searchInfoResponse k with
  | error err => simp [callbacks]
  | ok body =>
    simp only [onSearchInfo_classify]
    split <;> simp [callbacks]

theorem neverBoth_onResult (env : Env Doc) (k : Nat) :
    ∀ c ∈ callbacks (onResult env k), c.1 = none ∨ c.2 = none := by
  rw [callbacks_onResult]
  cases env.resultResponse k with
  | error err => simp
  | ok body =>
    simp only [callbacks_onParsed]
    by_cases h : (env.parseString body).1.isSome = true <;> simp [h]

theorem neverBoth_tick (env : Env Doc) (rid : String) (k : Nat) :
    ∀ c ∈ callbacks (tick env rid k), c.1 = none ∨ c.2 = none := by
  rw [callbacks_tick]
  cases env.searchInfoResponse k with
  | error err => simp
  | ok body =>
    simp only
    split
    · simp
    · simp
    · exact neverBoth_onResult env k
    · simp

theorem neverBoth_ticksUpTo (env : Env Doc) (rid : String) (n : Nat) :
    ∀ c ∈ callbacks (ticksUpTo env rid n), c.1 = none ∨ c.2 = none := by
  induction n with
  | zero => simp [ticksUpTo, callbacks]
  | succ n ih =>
    intro c hc
    rw [ticksUpTo, callbacks_append, List.mem_append] at hc
    rcases hc with hc | hc
    · exact ih c hc
    · exact neverBoth_tick env rid n c hc

theorem callbacks_fetchInfo (env : Env Doc) (rid : String) (timeout : TimerArg) (n : Nat) :
    callbacks (fetchInfo env rid timeout n) = callbacks (ticksUpTo env rid n) := by
  unfold fetchInfo
  rw [callbacks_append]
  simp [callbacks]

theorem callbacks_tick_length (env : Env Doc) (rid : String) (k : Nat)
    (hparse : parsesCleanly env k = true) :
    (callbacks (tick env rid k)).length ≤ 1 := by
  rw [callbacks_tick]
  cases env.searchInfoResponse k with
  | error err => simp
  | ok body =>
    simp only
    split
    · simp
    · simp
    · rw [callbacks_onResult]
      cases h : env.resultResponse k with
      | error err => simp
      | ok doc =>
        have hn : (env.parseString doc).1 = none := by
          simpa [parsesCleanly, h] using hparse
        simp [callbacks_onParsed, hn]
    · simp

end Polling

section Submission

variable {Doc : Type}

theorem postedForms_fetchInfo (env : Env Doc) (rid : String) (timeout : TimerArg) (n : Nat) :
    postedForms (fetchInfo env rid timeout n) = [] := by
  unfold fetchInfo
  rw [postedForms_append, postedForms_of_pollEvent _ (pollEvent_ticksUpTo env rid n)]
  simp [postedForms]

theorem timeouts_fetchInfo (env : Env Doc) (rid : String) (timeout : TimerArg) (n : Nat) :
    timeouts (fetchInfo env rid timeout n) = [timeout] := by
  unfold fetchInfo
  rw [timeouts_append, timeouts_of_pollEvent _ (pollEvent_ticksUpTo env rid n)]
  simp [timeouts]

theorem intervals_fetchInfo (env : Env Doc) (rid : String) (timeout : TimerArg) (n : Nat) :
    intervals (fetchInfo env rid timeout n) = [REFRESH_TIME] := by
  unfold fetchInfo
  rw [intervals_append, intervals_of_pollEvent _ (pollEvent_ticksUpTo env rid n)]
  simp [intervals]

theorem postedForms_onSubmitted (env : Env Doc) (n : Nat) :
    postedForms (onSubmitted env n) = [] := by
  unfold onSubmitted
  split
  · simp [postedForms]
  · split
    · simp [postedForms]
    · exact postedForms_fetchInfo env _ _ n

theorem postedForms_blast (env : Env Doc) (program database query : String)
    (rid : Option String) (n : Nat) :
    postedForms (blast env program database query rid n) =
      if falsy rid = true then [submissionForm program database query] else [] := by
  unfold blast
  rw [postedForms_append]
  have h0 : postedForms (if (!supportedPrograms.contains program) = true then
      [(Event.callback (some (.error (program ++ " is not a supported BLAST algorithm"))) none :
        Event Doc)] else []) = [] := by
    split_ifs <;> simp [postedForms]
  rw [h0, List.nil_append]
  by_cases hr : falsy rid = true
  · rw [if_pos hr, if_pos hr, postedForms_append, postedForms_onSubmitted]
    simp [postedForms, submissionForm]
  · rw [if_neg hr, if_neg hr, postedForms_append, postedForms_fetchInfo]
    simp [postedForms]

theorem falsy_some_of_ne (rid : String) (h : rid ≠ "") : falsy (some rid) = false := by
  cases hd : rid.data with
  | nil => exact absurd (String.ext hd) h
  | cons c cs => simp [falsy, hd]

theorem timeouts_blast_resume (env : Env Doc) (program database query rid : String) (n : Nat)
    (h : rid ≠ "") :
    timeouts (blast env program database query (some rid) n) = [TimerArg.num REFRESH_TIME] := by
  unfold blast
  rw [falsy_some_of_ne rid h, timeouts_append]
  simp only [Bool.false_eq_true, if_false, timeouts_append, timeouts_fetchInfo]
  split_ifs <;> simp [timeouts]

theorem getUrls_blast_resume (env : Env Doc) (program database query rid : String) (n : Nat)
    (h : rid ≠ "") :
    getUrls (blast env program database query (some rid) n) = getUrls (ticksUpTo env rid n) := by
  unfold blast
  rw [falsy_some_of_ne rid h, getUrls_append]
  simp only [Bool.false_eq_true, if_false, getUrls_append, getUrls_fetchInfo, Option.getD_some]
  split_ifs <;> simp [getUrls]

end Submission

section Helpers

variable {Doc : Type}

theorem classify_failed (body : String) (h : Contains body "Status=FAILED") :
    classify body = .failed := by
  simp [classify, h]

theorem classify_expired (body : String) (hf : ¬ Contains body "Status=FAILED")
    (h : Contains body "Status=UNKNOWN") : classify body = .expired := by
  simp [classify, hf, h]

theorem classify_ready (body : String) (hf : ¬ Contains body "Status=FAILED")
    (hu : ¬ Contains body "Status=UNKNOWN") (h : Contains body "Status=READY") :
    classify body = .ready := by
  simp [classify, hf, hu, h]

theorem classify_pending (body : String) (hf : ¬ Contains body "Status=FAILED")
    (hu : ¬ Contains body "Status=UNKNOWN") (h : ¬ Contains body "Status=READY") :
    classify body = .pending := by
  simp [classify, hf, hu, h]

theorem readyTick_ok (env : Env Doc) (k : Nat) (body : String)
    (h : env.searchInfoResponse k = .ok body) :
    readyTick env k = decide (classify body = .ready) := by
  simp [readyTick, h]

theorem readyTick_error (env : Env Doc) (k : Nat) (err : JSError)
    (h : env.searchInfoResponse k = .error err) : readyTick env k = false := by
  simp [readyTick, h]

theorem callbacks_tick_ok (env : Env Doc) (rid : String) (k : Nat) (body : String)
    (h : env.searchInfoResponse k = .ok body) :
    callbacks (tick env rid k) =
      match classify body with
      | .failed =>
        [(some (.error ("Search " ++ rid ++
          " failed; Please report to blast-help@ncbi.nlm.nih.gov")), none)]
      | .expired => [(some (.error ("Search " ++ rid ++ " expired.")), none)]
      | .ready => callbacks (onResult env k)
      | .pending => [] := by
  rw [callbacks_tick, h]

theorem callbacks_tick_error (env : Env Doc) (rid : String) (k : Nat) (err : JSError)
    (h : env.searchInfoResponse k = .error err) :
    callbacks (tick env rid k) = [(some err, none)] := by
  rw [callbacks_tick, h]

theorem fetches_fetchInfo (env : Env Doc) (rid : String) (timeout : TimerArg) (n : Nat) :
    fetches rid (fetchInfo env rid timeout n) =
      ((List.range n).filter (readyTick env)).length := by
  unfold fetches
  rw [getUrls_fetchInfo]
  exact fetches_ticksUpTo env rid n

theorem statusChecks_fetchInfo (env : Env Doc) (rid : String) (timeout : TimerArg) (n : Nat) :
    statusChecks rid (fetchInfo env rid timeout n) = n := by
  unfold statusChecks
  rw [getUrls_fetchInfo]
  exact statusChecks_ticksUpTo env rid n

theorem submissionArgs_of_lack (body : String)
    (h : ¬ HasLine body RID ∨ ¬ HasLine body RTOE) :
    ∃ i, submissionArgs body = .error (.nullProperty i) := by
  unfold submissionArgs
  cases hr : jsMatch body RID with
  | none => exact ⟨0, rfl⟩
  | some rid =>
    cases ht : jsMatch body RTOE with
    | none => exact ⟨1, rfl⟩
    | some rtoe =>
      exfalso
      rcases h with h | h
      · exact h ((jsMatch_isSome_iff body RID RID_literal_ok).mp (by simp [hr]))
      · exact h ((jsMatch_isSome_iff body RTOE RTOE_literal_ok).mp (by simp [ht]))

theorem neverBoth_onSubmitted (env : Env Doc) (n : Nat) :
    ∀ c ∈ callbacks (onSubmitted env n), c.1 = none ∨ c.2 = none := by
  unfold onSubmitted
  split
  · simp [callbacks]
  · split
    · simp [callbacks]
    · rw [callbacks_fetchInfo]
      exact neverBoth_ticksUpTo env _ n

theorem neverBoth_blast (env : Env Doc) (program database query : String)
    (rid : Option String) (n : Nat) :
    ∀ c ∈ callbacks (blast env program database query rid n), c.1 = none ∨ c.2 = none := by
  intro c hc
  unfold blast at hc
  rw [callbacks_append, List.mem_append] at hc
  rcases hc with hc | hc
  · split_ifs at hc
    · simp [callbacks] at hc
      subst hc
      exact Or.inr rfl
    · simp [callbacks] at hc
  · by_cases hr : falsy rid = true
    · rw [if_pos hr, callbacks_append, List.mem_append] at hc
      rcases hc with hc | hc
      · simp [callbacks] at hc
      · exact neverBoth_onSubmitted env n c hc
    · rw [if_neg hr, callbacks_append, List.mem_append, callbacks_fetchInfo] at hc
      rcases hc with hc | hc
      · simp [callbacks] at hc
      · exact neverBoth_ticksUpTo env _ n c hc

theorem hexDigit_unreserved : ∀ n < 16, uriUnreserved (hexDigit n) = true := by decide

theorem utf8Bytes_lt (n : Nat) (hn : n < 0x110000) : ∀ b ∈ utf8Bytes n, b < 256 := by
  intro b hb
  unfold utf8Bytes at hb
  split_ifs at hb <;> simp at hb <;> omega

/-- The output of `encodeURIComponent` consists of unreserved characters and `%`. -/
theorem encodeURIComponent_chars (s : String) :
    ∀ c ∈ (encodeURIComponent s).data, uriUnreserved c = true ∨ c = '%' := by
  intro c hc
  unfold encodeURIComponent at hc
  simp only [List.mem_flatMap] at hc
  obtain ⟨a, _, hca⟩ := hc
  split_ifs at hca with hu
  · simp at hca
    subst hca
    exact Or.inl hu
  · simp only [List.mem_flatMap] at hca
    obtain ⟨b, hb, hcb⟩ := hca
    have hlt : b < 256 := by
      refine utf8Bytes_lt a.toNat ?_ b hb
      rcases a.valid with h | h
      · have : a.toNat = a.val.toNat := rfl
        omega
      · have : a.toNat = a.val.toNat := rfl
        omega
    simp only [percentByte, List.mem_cons, List.mem_singleton, List.not_mem_nil, or_false] at hcb
    rcases hcb with rfl | rfl | rfl
    · exact Or.inr rfl
    · exact Or.inl (hexDigit_unreserved _ (by omega))
    · exact Or.inl (hexDigit_unreserved _ (by omega))

end Helpers

/-! ## The claims -/

section Claims

variable {Doc : Type}

/-- C1: an unsupported program is reported to the callback, but the function does not
return there: with no job id it goes on to log and to issue the submission `POST`,
whatever the program is.  At program `rpsblast` the first event is the
unsupported-program error and the trace holds one `POST`, so the trace of outbound
requests is not empty. -/
theorem unsupported_program_still_posts (env : Env Doc) (ticks : Nat) :
    (∀ program : String,
        postedForms (moduleExports env (some program) none none none ticks) =
          [submissionForm program "nr" "protein.fasta"]) ∧
      "rpsblast" ∉ supportedPrograms ∧
      (moduleExports env (some "rpsblast") none none none ticks).take 3 =
        [Event.callback (some (.error "rpsblast is not a supported BLAST algorithm")) none,
          Event.log "Querying NCBI database nr with program rpsblast and query protein.fasta",
          Event.post "https://blast.ncbi.nlm.nih.gov/blast/Blast.cgi"
            [("CMD", "Put"), ("PROGRAM", "rpsblast"), ("DATABASE", "nr"),
              ("QUERY", "protein.fasta")]] ∧
      1 ≤ requestCount (moduleExports env (some "rpsblast") none none none ticks) := by
  have hp : ∀ program : String,
      postedForms (moduleExports env (some program) none none none ticks) =
        [submissionForm program "nr" "protein.fasta"] := by
    intro program
    unfold moduleExports
    rw [postedForms_blast]
    rfl
  refine ⟨hp, by decide, rfl, ?_⟩
  unfold requestCount
  rw [hp]
  simp

/-- C2: for the submission response with lines `    RID = ABC123` and `    RTOE = 17` the
code hands `rid[0]`, the whole matched line `    RID = ABC123`, to polling, and that text
is the RID value of the status-check and fetch URLs; the wait estimate is the text `17`. -/
theorem submission_hands_whole_rid_line :
    submissionArgs "    RID = ABC123\n    RTOE = 17\n" = .ok ("    RID = ABC123", "17") ∧
      getUrls (moduleExports (sampleEnv "17" "Status=READY" "<ok/>") none none none none 1) =
        ["https://blast.ncbi.nlm.nih.gov/blast/Blast.cgi?&CMD=Get&FORMAT_OBJECT=SearchInfo&RID=    RID = ABC123",
         "https://blast.ncbi.nlm.nih.gov/blast/Blast.cgi?CMD=Get&FORMAT_TYPE=XML&RID=    RID = ABC123"] :=
  ⟨rfl, by decide⟩

/-- C10: after a submission answered with `RTOE = 60` the timer is armed with the text
`60` itself, which the runtime reads as 60 ms, not with 60 * 1000 ms; the first status
check comes 30060 ms after the response, earlier than 60 seconds. -/
theorem rtoe_passed_as_milliseconds :
    timeouts (moduleExports (sampleEnv "60" "Status=READY" "<ok/>") none none none none 0) =
        [TimerArg.str "60"] ∧
      timerMillis (TimerArg.str "60") = some 60 ∧
      timerMillis (TimerArg.str "60") ≠ some (60 * 1000) ∧
      firstCheckMillis (TimerArg.str "60") = some 30060 ∧
      30060 < 60 * 1000 := by
  decide

/-- C7 as stated fails: with the existing job id `ABC123` the delay handed to the first
suspension is 30000 ms, not 0 ms, and the first status check comes 60000 ms after the
call, not one interval of 30000 ms after it. -/
theorem resume_delay_not_zero :
    timeouts (moduleExports (sampleEnv "17" "Status=READY" "<ok/>") none none none
        (some "ABC123") 1) = [TimerArg.num 30000] ∧
      timerMillis (TimerArg.num 30000) ≠ some 0 ∧
      firstCheckMillis (TimerArg.num 30000) = some 60000 := by
  decide

/-- C7, amended: when an existing (non-empty) job id is supplied, no submission is
posted, the delay handed to the first suspension is the default `REFRESH_TIME` = 30000 ms,
so that the first status check comes 60000 ms after the call, and the status checks are
those of the interval firings, for the supplied id. -/
theorem resume_uses_refresh_time (env : Env Doc) (program database query : Option String)
    (rid : String) (ticks : Nat) (hrid : rid ≠ "") :
    postedForms (moduleExports env program database query (some rid) ticks) = [] ∧
      timeouts (moduleExports env program database query (some rid) ticks) =
        [TimerArg.num REFRESH_TIME] ∧
      timerMillis (TimerArg.num REFRESH_TIME) = some 30000 ∧
      firstCheckMillis (TimerArg.num REFRESH_TIME) = some 60000 ∧
      statusChecks rid (moduleExports env program database query (some rid) ticks) = ticks := by
  refine ⟨?_, ?_, rfl, rfl, ?_⟩
  · unfold moduleExports
    rw [postedForms_blast, falsy_some_of_ne rid hrid]
    rfl
  · exact timeouts_blast_resume env _ _ _ rid ticks hrid
  · unfold moduleExports statusChecks
    rw [getUrls_blast_resume env _ _ _ rid ticks hrid]
    exact statusChecks_ticksUpTo env rid ticks

/-- Witness of C7, amended, at the job id `ABC123`. -/
theorem resume_uses_refresh_time_witness :
    "ABC123" ≠ "" ∧
      timeouts (moduleExports (sampleEnv "17" "Status=READY" "<ok/>") none none none
        (some "ABC123") 3) = [TimerArg.num REFRESH_TIME] :=
  ⟨by decide,
    (resume_uses_refresh_time (sampleEnv "17" "Status=READY" "<ok/>") none none none
      "ABC123" 3 (by decide)).2.1⟩

/-- C3 as stated fails: with the existing job id `ABC123` and a service that answers
`Status=FAILED` at every check, two firings of the interval invoke the callback twice;
and with `Status=READY` and a document that does not parse, one firing invokes it twice. -/
theorem callback_invoked_twice :
    callbacks (moduleExports (sampleEnv "17" "Status=FAILED" "<ok/>") none none none
        (some "ABC123") 2) =
        [(some (.error "Search ABC123 failed; Please report to blast-help@ncbi.nlm.nih.gov"),
            none),
          (some (.error "Search ABC123 failed; Please report to blast-help@ncbi.nlm.nih.gov"),
            none)] ∧
      callbacks (moduleExports (sampleEnv "17" "Status=READY" "<broken") none none none
        (some "ABC123") 1) = [(some (.foreign "xml"), none), (none, none)] := by
  decide

/-- C3, amended: no callback invocation of a run carries both an error and a result,
and a firing of the interval whose fetched document (if any) parses without error
invokes the callback at most once; the invocations of different firings add up. -/
theorem callback_once_per_tick (env : Env Doc) (rid : String) (k : Nat)
    (hparse : parsesCleanly env k = true) :
    (callbacks (tick env rid k)).length ≤ 1 ∧
      (∀ (program database query job : Option String) (ticks : Nat),
        ∀ c ∈ callbacks (moduleExports env program database query job ticks),
          c.1 = none ∨ c.2 = none) ∧
      ∀ n, callbacks (ticksUpTo env rid (n + 1)) =
        callbacks (ticksUpTo env rid n) ++ callbacks (tick env rid n) :=
  ⟨callbacks_tick_length env rid k hparse,
    fun _ _ _ job ticks => neverBoth_blast env _ _ _ job ticks,
    fun n => by rw [ticksUpTo, callbacks_append]⟩

/-- Witness of C3, amended: a firing with a ready status and a well-formed document. -/
theorem callback_once_per_tick_witness :
    parsesCleanly (sampleEnv "17" "Status=READY" "<ok/>") 0 = true ∧
      (callbacks (tick (sampleEnv "17" "Status=READY" "<ok/>") "ABC123" 0)).length ≤ 1 :=
  ⟨rfl, (callback_once_per_tick (sampleEnv "17" "Status=READY" "<ok/>") "ABC123" 0 rfl).1⟩

/-- C4: one status-check body is classified by substring membership in priority order.
A body containing `Status=FAILED` gives the failed error naming the job id and no fetch;
otherwise one containing `Status=UNKNOWN` gives the expired error and no fetch; otherwise
one containing `Status=READY` gives a fetch request; any other body gives neither a
callback nor a fetch in that firing. -/
theorem status_check_priority (env : Env Doc) (rid : String) (k : Nat) (body : String)
    (hbody : env.searchInfoResponse k = .ok body) :
    (Contains body "Status=FAILED" →
        callbacks (tick env rid k) =
          [(some (.error ("Search " ++ rid ++
            " failed; Please report to blast-help@ncbi.nlm.nih.gov")), none)] ∧
        fetches rid (tick env rid k) = 0) ∧
      (¬ Contains body "Status=FAILED" → Contains body "Status=UNKNOWN" →
        callbacks (tick env rid k) = [(some (.error ("Search " ++ rid ++ " expired.")), none)] ∧
        fetches rid (tick env rid k) = 0) ∧
      (¬ Contains body "Status=FAILED" → ¬ Contains body "Status=UNKNOWN" →
        Contains body "Status=READY" →
        getUrls (tick env rid k) = [searchInfoUrl rid, resultUrl rid] ∧
        fetches rid (tick env rid k) = 1) ∧
      (¬ Contains body "Status=FAILED" → ¬ Contains body "Status=UNKNOWN" →
        ¬ Contains body "Status=READY" →
        callbacks (tick env rid k) = [] ∧ fetches rid (tick env rid k) = 0) := by
  refine ⟨?_, ?_, ?_, ?_⟩
  · intro hf
    have hc := classify_failed body hf
    rw [callbacks_tick_ok env rid k body hbody, fetches_tick, readyTick_ok env k body hbody, hc]
    exact ⟨rfl, rfl⟩
  · intro hf hu
    have hc := classify_expired body hf hu
    rw [callbacks_tick_ok env rid k body hbody, fetches_tick, readyTick_ok env k body hbody, hc]
    exact ⟨rfl, rfl⟩
  · intro hf hu hr
    have hc := classify_ready body hf hu hr
    rw [getUrls_tick, fetches_tick, readyTick_ok env k body hbody, hc]
    exact ⟨rfl, rfl⟩
  · intro hf hu hr
    have hc := classify_pending body hf hu hr
    rw [callbacks_tick_ok env rid k body hbody, fetches_tick, readyTick_ok env k body hbody, hc]
    exact ⟨rfl, rfl⟩

/-- Witness of C4: a body that contains both `Status=FAILED` and `Status=READY` is failed. -/
theorem status_check_priority_witness :
    (sampleEnv "17" "Status=FAILED Status=READY" "<ok/>").searchInfoResponse 0 =
        .ok "Status=FAILED Status=READY" ∧
      Contains "Status=FAILED Status=READY" "Status=FAILED" ∧
      callbacks (tick (sampleEnv "17" "Status=FAILED Status=READY" "<ok/>") "ABC123" 0) =
        [(some (.error ("Search " ++ "ABC123" ++
          " failed; Please report to blast-help@ncbi.nlm.nih.gov")), none)] ∧
      fetches "ABC123" (tick (sampleEnv "17" "Status=FAILED Status=READY" "<ok/>") "ABC123" 0)
        = 0 :=
  ⟨rfl, by decide,
    (status_check_priority (sampleEnv "17" "Status=FAILED Status=READY" "<ok/>") "ABC123" 0
      "Status=FAILED Status=READY" rfl).1 (by decide)⟩

/-- C5 as stated fails: with `Status=READY` at every check and a well-formed document,
a run observed for two firings of the interval has issued two fetch requests. -/
theorem ready_run_fetches_twice :
    fetches "ABC123" (moduleExports (sampleEnv "17" "Status=READY" "<ok/>") none none none
        (some "ABC123") 2) = 2 ∧
      callbacks (moduleExports (sampleEnv "17" "Status=READY" "<ok/>") none none none
        (some "ABC123") 2) = [(none, some "parsed"), (none, some "parsed")] := by
  decide

/-- C5, amended: in a firing whose status check contains `Status=READY` (and neither
FAILED nor UNKNOWN) and whose fetch returns a well-formed document, the callback
receives the parse of that document and that firing issues exactly one fetch request,
`CMD=Get&FORMAT_TYPE=XML&RID=<id>`; the run as a whole issues one fetch request for each
firing whose status check reads ready. -/
theorem ready_tick_delivers_result (env : Env Doc) (rid : String) (k : Nat)
    (body doc : String) (result : Doc)
    (hbody : env.searchInfoResponse k = .ok body)
    (hready : Contains body "Status=READY")
    (hfailed : ¬ Contains body "Status=FAILED")
    (hunknown : ¬ Contains body "Status=UNKNOWN")
    (hdoc : env.resultResponse k = .ok doc)
    (hparse : env.parseString doc = (none, some result)) :
    callbacks (tick env rid k) = [(none, some result)] ∧
      getUrls (tick env rid k) =
        [searchInfoUrl rid, API_ROOT ++ "?CMD=Get&FORMAT_TYPE=XML&RID=" ++ rid] ∧
      fetches rid (tick env rid k) = 1 ∧
      ∀ timeout n, fetches rid (fetchInfo env rid timeout n) =
        ((List.range n).filter (readyTick env)).length := by
  have hc := classify_ready body hfailed hunknown hready
  refine ⟨?_, ?_, ?_, fun timeout n => fetches_fetchInfo env rid timeout n⟩
  · rw [callbacks_tick_ok env rid k body hbody, hc]
    simp only
    rw [callbacks_onResult, hdoc]
    simp only
    rw [callbacks_onParsed, hparse]
    rfl
  · rw [getUrls_tick, readyTick_ok env k body hbody, hc]
    rfl
  · rw [fetches_tick, readyTick_ok env k body hbody, hc]
    rfl

/-- Witness of C5, amended: a ready status followed by the document `<ok/>`. -/
theorem ready_tick_delivers_result_witness :
    Contains "Status=READY" "Status=READY" ∧ ¬ Contains "Status=READY" "Status=FAILED" ∧
      ¬ Contains "Status=READY" "Status=UNKNOWN" ∧
      sampleParse "<ok/>" = (none, some "parsed") ∧
      callbacks (tick (sampleEnv "17" "Status=READY" "<ok/>") "ABC123" 0) =
        [(none, some "parsed")] ∧
      fetches "ABC123" (tick (sampleEnv "17" "Status=READY" "<ok/>") "ABC123" 0) = 1 :=
  have h := ready_tick_delivers_result (sampleEnv "17" "Status=READY" "<ok/>") "ABC123" 0
    "Status=READY" "<ok/>" "parsed" rfl (by decide) (by decide) (by decide) rfl rfl
  ⟨by decide, by decide, by decide, rfl, h.1, h.2.2.1⟩

/-- C6 as stated fails: with the existing job id `ABC123` and `Status=FAILED` at every
check, the failed error is delivered in the first firing of the interval and the second
firing issues a further status-check request. -/
theorem polling_continues_after_failure :
    moduleExports (sampleEnv "17" "Status=FAILED" "<ok/>") none none none (some "ABC123") 2 =
      [Event.log "Fetching results for RID ABC123",
        Event.setTimeout (TimerArg.num 30000),
        Event.log "Updating search info for query ABC123 every 30 seconds.",
        Event.setInterval 30000,
        Event.log "Updating search info for query ABC123",
        Event.get
          "https://blast.ncbi.nlm.nih.gov/blast/Blast.cgi?&CMD=Get&FORMAT_OBJECT=SearchInfo&RID=ABC123",
        Event.callback
          (some (.error "Search ABC123 failed; Please report to blast-help@ncbi.nlm.nih.gov"))
          none,
        Event.log "Updating search info for query ABC123",
        Event.get
          "https://blast.ncbi.nlm.nih.gov/blast/Blast.cgi?&CMD=Get&FORMAT_OBJECT=SearchInfo&RID=ABC123",
        Event.callback
          (some (.error "Search ABC123 failed; Please report to blast-help@ncbi.nlm.nih.gov"))
          none] := by
  decide

/-- C6, amended: a firing of the interval that delivers the failed or expired outcome or
a status-check transport error delivers exactly one callback and issues no fetch request
in that firing; polling itself does not halt, since the interval is never cleared: every
firing issues one status-check request, so a run observed for `n` firings has issued `n`
of them. -/
theorem terminal_tick_no_fetch (env : Env Doc) (rid : String) (k : Nat)
    (hterminal : (∃ err, env.searchInfoResponse k = .error err) ∨
      ∃ body, env.searchInfoResponse k = .ok body ∧
        (Contains body "Status=FAILED" ∨ Contains body "Status=UNKNOWN")) :
    fetches rid (tick env rid k) = 0 ∧
      (callbacks (tick env rid k)).length = 1 ∧
      (∀ j, statusChecks rid (tick env rid j) = 1) ∧
      ∀ timeout n, statusChecks rid (fetchInfo env rid timeout n) = n := by
  refine ⟨?_, ?_, fun j => statusChecks_tick env rid j,
    fun timeout n => statusChecks_fetchInfo env rid timeout n⟩
  · rcases hterminal with ⟨err, he⟩ | ⟨body, hb, hs⟩
    · rw [fetches_tick, readyTick_error env k err he]
      rfl
    · rw [fetches_tick, readyTick_ok env k body hb]
      by_cases hf : Contains body "Status=FAILED"
      · rw [classify_failed body hf]
        rfl
      · rw [classify_expired body hf (hs.resolve_left hf)]
        rfl
  · rcases hterminal with ⟨err, he⟩ | ⟨body, hb, hs⟩
    · rw [callbacks_tick_error env rid k err he]
      rfl
    · rw [callbacks_tick_ok env rid k body hb]
      by_cases hf : Contains body "Status=FAILED"
      · rw [classify_failed body hf]
        rfl
      · rw [classify_expired body hf (hs.resolve_left hf)]
        rfl

/-- Witness of C6, amended: an expired job, observed for five firings. -/
theorem terminal_tick_no_fetch_witness :
    (∃ body, (sampleEnv "17" "Status=UNKNOWN" "<ok/>").searchInfoResponse 0 = .ok body ∧
        (Contains body "Status=FAILED" ∨ Contains body "Status=UNKNOWN")) ∧
      fetches "ABC123" (tick (sampleEnv "17" "Status=UNKNOWN" "<ok/>") "ABC123" 0) = 0 ∧
      statusChecks "ABC123"
        (fetchInfo (sampleEnv "17" "Status=UNKNOWN" "<ok/>") "ABC123" (TimerArg.num 30000) 5)
        = 5 :=
  have hw : ∃ body, (sampleEnv "17" "Status=UNKNOWN" "<ok/>").searchInfoResponse 0 = .ok body ∧
      (Contains body "Status=FAILED" ∨ Contains body "Status=UNKNOWN") :=
    ⟨"Status=UNKNOWN", rfl, Or.inr (by decide)⟩
  have h := terminal_tick_no_fetch (sampleEnv "17" "Status=UNKNOWN" "<ok/>") "ABC123" 0
    (Or.inr hw)
  ⟨hw, h.1, h.2.2.2 (TimerArg.num 30000) 5⟩

/-- C8: for each of the six supported programs the call without a job id posts exactly one
form, with `CMD=Put`, `DATABASE` the database, `QUERY` the percent-encoded query (only
unreserved characters and `%`) and `PROGRAM` the input program, except that `megablast`
is sent as `blastp&MEGABLAST=on`; no error precedes the submission. -/
theorem submission_form_fields (env : Env Doc) (program database query : String)
    (ticks : Nat) (hprogram : program ∈ supportedPrograms) :
    postedForms (moduleExports env (some program) (some database) (some query) none ticks) =
        [[("CMD", "Put"),
          ("PROGRAM", if program = "megablast" then "blastp&MEGABLAST=on" else program),
          ("DATABASE", database),
          ("QUERY", encodeURIComponent query)]] ∧
      (∀ c ∈ (encodeURIComponent query).data, uriUnreserved c = true ∨ c = '%') ∧
      (moduleExports env (some program) (some database) (some query) none ticks).take 2 =
        [Event.log ("Querying NCBI database " ++ database ++ " with program " ++
            (if program = "megablast" then "blastp&MEGABLAST=on" else program) ++
            " and query " ++ query),
          Event.post API_ROOT
            [("CMD", "Put"),
              ("PROGRAM", if program = "megablast" then "blastp&MEGABLAST=on" else program),
              ("DATABASE", database),
              ("QUERY", encodeURIComponent query)]] := by
  refine ⟨?_, encodeURIComponent_chars query, ?_⟩
  · unfold moduleExports
    rw [postedForms_blast]
    rfl
  · have hc : supportedPrograms.contains program = true := by
      simpa using hprogram
    simp [moduleExports, blast, hprogram, falsy, submissionForm]

/-- Witness of C8: the form posted for `megablast` and the query `a b`. -/
theorem submission_form_fields_witness :
    "megablast" ∈ supportedPrograms ∧
      postedForms (moduleExports (sampleEnv "17" "Status=READY" "<ok/>") (some "megablast")
        (some "nr") (some "a b") none 1) =
        [[("CMD", "Put"), ("PROGRAM", "blastp&MEGABLAST=on"), ("DATABASE", "nr"),
          ("QUERY", "a%20b")]] :=
  ⟨by decide,
    (submission_form_fields (sampleEnv "17" "Status=READY" "<ok/>") "megablast" "nr" "a b" 1
      (by decide)).1⟩

/-- C9: when the submission response lacks the `    RID = <value>` line or the
`    RTOE = <value>` line, an error (the `TypeError` of reading a property of `null`)
is delivered to the callback and polling never starts: no timer is armed and no `GET`
request is issued. -/
theorem submission_without_markers_fails (env : Env Doc)
    (program database query : Option String) (ticks : Nat) (body : String)
    (hbody : env.submitResponse = .ok body)
    (hlack : ¬ HasLine body RID ∨ ¬ HasLine body RTOE) :
    (∃ i, (some (JSError.nullProperty i), none) ∈
        callbacks (moduleExports env program database query none ticks)) ∧
      timeouts (moduleExports env program database query none ticks) = [] ∧
      intervals (moduleExports env program database query none ticks) = [] ∧
      getUrls (moduleExports env program database query none ticks) = [] := by
  obtain ⟨i, hi⟩ := submissionArgs_of_lack body hlack
  have hs : onSubmitted env ticks = [Event.callback (some (.nullProperty i)) none] := by
    unfold onSubmitted
    rw [hbody]
    simp only
    rw [hi]
  refine ⟨⟨i, ?_⟩, ?_, ?_, ?_⟩
  · unfold moduleExports blast
    simp only [falsy, if_true, hs, callbacks_append]
    simp [callbacks]
  · unfold moduleExports blast
    simp only [falsy, if_true, hs, timeouts_append]
    split_ifs <;> simp [timeouts]
  · unfold moduleExports blast
    simp only [falsy, if_true, hs, intervals_append]
    split_ifs <;> simp [intervals]
  · unfold moduleExports blast
    simp only [falsy, if_true, hs, getUrls_append]
    split_ifs <;> simp [getUrls]

/-- Witness of C9: a submission response with the `RID` line and no `RTOE` line. -/
theorem submission_without_markers_fails_witness :
    (¬ HasLine "    RID = ABC123\n" RID ∨ ¬ HasLine "    RID = ABC123\n" RTOE) ∧
      (∃ i, (some (JSError.nullProperty i), none) ∈
        callbacks (moduleExports (truncatedSubmitEnv "    RID = ABC123\n") none none none
          none 4)) ∧
      getUrls (moduleExports (truncatedSubmitEnv "    RID = ABC123\n") none none none
        none 4) = [] :=
  have hl : ¬ HasLine "    RID = ABC123\n" RID ∨ ¬ HasLine "    RID = ABC123\n" RTOE :=
    Or.inr (by decide)
  have h := submission_without_markers_fails (truncatedSubmitEnv "    RID = ABC123\n")
    none none none 4 "    RID = ABC123\n" rfl hl
  ⟨hl, h.1, h.2.2.2⟩

end Claims

end NcbiBlast
